import Mathlib

/-!
# Verification of `RemoteSource.cpp` (Processors/Sources/RemoteSource)

Shallow embedding of the streaming remote source processor:
`RemoteSource`, `RemoteTotalsSource`, `RemoteExtremesSource` and the pipe
assembler, together with the generic `ISource` prepare/work contract they
specialize.  The columnar payload of a block/chunk is abstracted to its row
count; block side info keeps the `bucket_num` / `is_overflows` fields that the
source copies into `AggregatedChunkInfo`.  The external
`RemoteQueryExecutor` handle is modelled as a scripted oracle: each read-like
call consumes the head of the corresponding script, and call counters record
how often `sendQuery` / `finish` / `cancel` were invoked.
-/

/-- Side info attached to a chunk coming from a partially aggregated remote
state: bucket number and overflow flag (`AggregatedChunkInfo`). -/
structure AggregatedChunkInfo where
  bucket_num : Int
  is_overflows : Bool
deriving Repr, DecidableEq

/-- A data block produced by the remote executor.  The columnar payload is
abstracted to its row count; `bucket_num` / `is_overflows` mirror
`Block::info`.  An *empty* block (`if (!block)` in the code) is represented
as `none` at the use sites, i.e. blocks travel as `Option BlockData`. -/
structure BlockData where
  rows : Nat
  bucket_num : Int
  is_overflows : Bool
deriving Repr, DecidableEq

/-- A chunk flowing through a port: a row count plus optional side info
(`Chunk(columns, num_rows)` with `setChunkInfo`). -/
structure Chunk where
  numRows : Nat
  info : Option AggregatedChunkInfo
deriving Repr, DecidableEq

/-- `Chunk()` — the default-constructed empty chunk. -/
def Chunk.empty : Chunk := ⟨0, none⟩

/-- `Chunk`'s boolean conversion: a chunk with rows counts as data. -/
def Chunk.toBool (c : Chunk) : Bool := c.numRows != 0

/-- Outcome of `RemoteQueryExecutor::read` in asynchronous mode
(`ReadResult::Type`): `Nothing`, `FileDescriptor`, `ParallelReplicasToken`
or `Data` carrying a (possibly empty) block. -/
inductive ReadResult where
  | Nothing : ReadResult
  | FileDescriptor : Nat → ReadResult
  | ParallelReplicasToken : ReadResult
  | Data : Option BlockData → ReadResult
deriving Repr, DecidableEq

/-- The external `RemoteQueryExecutor` handle, modelled as a scripted oracle.
`header` lists, per output column, whether its type is a
`DataTypeAggregateFunction`.  `readScript` feeds asynchronous `read` calls,
`blockScript` feeds blocking `readBlock` calls, `totalsScript` and
`extremesScript` feed `getTotals` / `getExtremes`.  The counters record calls
to `sendQuery` / `finish` / `cancel`; `wasCancelled` / `wasFinished` are the
handle's own idempotent flags. -/
structure RemoteQueryExecutor where
  header : List Bool
  readScript : List ReadResult
  blockScript : List (Option BlockData)
  totalsScript : List (Option BlockData)
  extremesScript : List (Option BlockData)
  sendQueryCount : Nat
  finishCount : Nat
  cancelCount : Nat
  progressCallbackSet : Bool
  profileInfoCallbackSet : Bool
  wasCancelled : Bool
  wasFinished : Bool
deriving Repr, DecidableEq

/-- `query_executor->sendQuery()`. -/
def RemoteQueryExecutor.sendQuery (e : RemoteQueryExecutor) : RemoteQueryExecutor :=
  { e with sendQueryCount := e.sendQueryCount + 1 }

/-- `query_executor->finish(&read_context)`: counted per call; the handle's
own `wasFinished` flag is idempotent. -/
def RemoteQueryExecutor.finish (e : RemoteQueryExecutor) : RemoteQueryExecutor :=
  { e with finishCount := e.finishCount + 1, wasFinished := true }

/-- `query_executor->cancel(&read_context)`: counted per call; the handle's
own `wasCancelled` flag is idempotent. -/
def RemoteQueryExecutor.cancel (e : RemoteQueryExecutor) : RemoteQueryExecutor :=
  { e with cancelCount := e.cancelCount + 1, wasCancelled := true }

/-- `query_executor->setProgressCallback(...)`. -/
def RemoteQueryExecutor.setProgressCallback (e : RemoteQueryExecutor) : RemoteQueryExecutor :=
  { e with progressCallbackSet := true }

/-- `query_executor->setProfileInfoCallback(...)`. -/
def RemoteQueryExecutor.setProfileInfoCallback (e : RemoteQueryExecutor) : RemoteQueryExecutor :=
  { e with profileInfoCallbackSet := true }

/-- `query_executor->read(read_context)`: consumes the head of `readScript`.
An exhausted script behaves as end of stream (`Data` with an empty block). -/
def RemoteQueryExecutor.read (e : RemoteQueryExecutor) : ReadResult × RemoteQueryExecutor :=
  match e.readScript with
  | [] => (ReadResult.Data none, e)
  | r :: rest => (r, { e with readScript := rest })

/-- `query_executor->readBlock()`: consumes the head of `blockScript`.
An exhausted script yields the empty block. -/
def RemoteQueryExecutor.readBlock (e : RemoteQueryExecutor) : Option BlockData × RemoteQueryExecutor :=
  match e.blockScript with
  | [] => (none, e)
  | b :: rest => (b, { e with blockScript := rest })

/-- `query_executor->getTotals()`: consumes the head of `totalsScript`. -/
def RemoteQueryExecutor.getTotals (e : RemoteQueryExecutor) : Option BlockData × RemoteQueryExecutor :=
  match e.totalsScript with
  | [] => (none, e)
  | b :: rest => (b, { e with totalsScript := rest })

/-- `query_executor->getExtremes()`: consumes the head of `extremesScript`. -/
def RemoteQueryExecutor.getExtremes (e : RemoteQueryExecutor) : Option BlockData × RemoteQueryExecutor :=
  match e.extremesScript with
  | [] => (none, e)
  | b :: rest => (b, { e with extremesScript := rest })

/-- Modelled from the spec: a `Port` is a bounded single-slot channel with
explicit `finish` / `canPush` / `push` / `isFinished` operations (the Port
classes live outside this translation unit).  `slot` holds the chunk in
flight; `log` records every chunk ever pushed, newest last. -/
structure Port where
  isFinished : Bool
  slot : Option Chunk
  log : List Chunk
deriving Repr, DecidableEq

/-- A fresh connected port. -/
def Port.new : Port := ⟨false, none, []⟩

/-- Modelled from the spec: a single-slot port accepts a push when it is not
finished and its slot is free. -/
def Port.canPush (p : Port) : Bool := !p.isFinished && p.slot.isNone

/-- `port.push(chunk)`: occupy the slot and record the chunk. -/
def Port.push (p : Port) (c : Chunk) : Port :=
  { p with slot := some c, log := p.log ++ [c] }

/-- `port.finish()`. -/
def Port.finish (p : Port) : Port := { p with isFinished := true }

/-- The downstream consumer pulling the chunk out of the slot. -/
def Port.pull (p : Port) : Port := { p with slot := none }

/-- `IProcessor::Status`, restricted to the states a source can report. -/
inductive Status where
  | NeedsData : Status
  | PortFull : Status
  | Finished : Status
  | Ready : Status
  | Async : Status
deriving Repr, DecidableEq

/-- Error codes thrown by this translation unit. -/
inductive Err where
  | LOGICAL_ERROR : Err
deriving Repr, DecidableEq

/-- Result of one `tryGenerate` call: either an exception unwound out of the
producing step, or the `std::optional<Chunk>` value (`none` = end of
stream). -/
inductive GenResult where
  | thrown : Err → GenResult
  | yield : Option Chunk → GenResult
deriving Repr, DecidableEq

/-- State of a `RemoteSource` processor.  The first block of fields is the
`ISource` base state (modelled from the spec, see `ISource.prepare`); the
second block are the members of `RemoteSource` itself.  `dependency_port`
is `none` until `connectToScheduler` wires it. -/
structure RemoteSource where
  output : Port
  finished : Bool
  is_cancelled : Bool
  has_input : Bool
  current_chunk : Chunk
  add_aggregation_info : Bool
  async_read : Bool
  uuid : Nat
  was_query_sent : Bool
  was_query_canceled : Bool
  is_async_state : Bool
  fd : Option Nat
  dependency_port : Option Port
  executor : RemoteQueryExecutor
deriving Repr, DecidableEq

/-- `RemoteSource::RemoteSource(executor, add_aggregation_info_, async_read_,
uuid_)`: the constructor forces `add_aggregation_info` whenever the output
header contains a `DataTypeAggregateFunction` column. -/
def RemoteSource.new (executor : RemoteQueryExecutor)
    (add_aggregation_info_ async_read_ : Bool) (uuid_ : Nat) : RemoteSource :=
  { output := Port.new
    finished := false
    is_cancelled := false
    has_input := false
    current_chunk := Chunk.empty
    add_aggregation_info := add_aggregation_info_ || executor.header.any (fun t => t)
    async_read := async_read_
    uuid := uuid_
    was_query_sent := false
    was_query_canceled := false
    is_async_state := false
    fd := none
    dependency_port := none
    executor := executor }

/-- `RemoteSource::connectToScheduler`: creates the dependency output port. -/
def RemoteSource.connectToScheduler (s : RemoteSource) : RemoteSource :=
  { s with dependency_port := some Port.new }

/-- `RemoteSource::getParallelReplicasGroupUUID`. -/
def RemoteSource.getParallelReplicasGroupUUID (s : RemoteSource) : Nat := s.uuid

/-- Modelled from the spec: the generic `ISource::prepare` contract
(`ISource.cpp` is not among the sources).  If the source is finished or
cancelled, finish the output and report `Finished`; if the output port is
finished, report `Finished`; if it cannot accept data, report `PortFull`;
if no chunk is pending, report `Ready`; otherwise push the pending chunk
and report `PortFull`. -/
def ISource.prepare (s : RemoteSource) : Status × RemoteSource :=
  if s.finished || s.is_cancelled then
    (Status.Finished, { s with output := s.output.finish })
  else if s.output.isFinished then
    (Status.Finished, s)
  else if !s.output.canPush then
    (Status.PortFull, s)
  else if !s.has_input then
    (Status.Ready, s)
  else
    (Status.PortFull,
      { s with output := s.output.push s.current_chunk,
               has_input := false, current_chunk := Chunk.empty })

/-- `RemoteSource::prepare`: cancellation first (to avoid the async re-entry
loop), then the async parking check, then the base status; a `Finished`
base status finishes the executor and the dependency port, a `PortFull`
base status pushes one empty marker chunk to an accepting dependency
port. -/
def RemoteSource.prepare (s : RemoteSource) : Status × RemoteSource :=
  if s.was_query_canceled then
    (Status.Finished, { s with output := s.output.finish })
  else if s.is_async_state then
    (Status.Async, s)
  else
    let (status, s1) := ISource.prepare s
    if status = Status.Finished then
      (Status.Finished,
        { s1 with executor := s1.executor.finish,
                  dependency_port := s1.dependency_port.map Port.finish,
                  is_async_state := false })
    else if status = Status.PortFull then
      (Status.PortFull,
        { s1 with dependency_port :=
            match s1.dependency_port with
            | some dp =>
                if !dp.isFinished && dp.canPush then some (dp.push Chunk.empty)
                else some dp
            | none => none })
    else
      (status, s1)

/-- `RemoteSource::tryGenerate`. -/
def RemoteSource.tryGenerate (s : RemoteSource) : GenResult × RemoteSource :=
  if s.was_query_canceled then
    (GenResult.yield none, s)
  else
    let submitted := ((s.executor.setProgressCallback).setProfileInfoCallback).sendQuery
    let s := if !s.was_query_sent then
        { s with executor := submitted, was_query_sent := true }
      else s
    if s.async_read then
      let (res, e1) := s.executor.read
      let s := { s with executor := e1 }
      match res with
      | ReadResult.Nothing => (GenResult.thrown Err.LOGICAL_ERROR, s)
      | ReadResult.FileDescriptor n =>
          (GenResult.yield (some Chunk.empty), { s with fd := some n, is_async_state := true })
      | ReadResult.ParallelReplicasToken =>
          (GenResult.yield (some Chunk.empty), { s with is_async_state := false })
      | ReadResult.Data ob =>
          let s := { s with is_async_state := false }
          match ob with
          | none => (GenResult.yield none, { s with executor := s.executor.finish })
          | some b =>
              (GenResult.yield (some
                ⟨b.rows,
                 if s.add_aggregation_info then some ⟨b.bucket_num, b.is_overflows⟩
                 else none⟩), s)
    else
      let (ob, e1) := s.executor.readBlock
      let s := { s with executor := e1 }
      match ob with
      | none => (GenResult.yield none, { s with executor := s.executor.finish })
      | some b =>
          (GenResult.yield (some
            ⟨b.rows,
             if s.add_aggregation_info then some ⟨b.bucket_num, b.is_overflows⟩
             else none⟩), s)

/-- `RemoteSource::onCancel`. -/
def RemoteSource.onCancel (s : RemoteSource) : RemoteSource :=
  { s with was_query_canceled := true, executor := s.executor.cancel }

/-- `RemoteSource::onUpdatePorts`. -/
def RemoteSource.onUpdatePorts (s : RemoteSource) : RemoteSource :=
  if s.output.isFinished then
    { s with was_query_canceled := true, executor := s.executor.finish }
  else s

/-- Modelled from the spec: the generic `ISource::work` step (not among the
sources).  A thrown exception marks the source finished and unwinds; an
absent optional marks end of stream; a present non-empty chunk becomes the
pending input. -/
def ISource.work (s : RemoteSource) : Option Err × RemoteSource :=
  match s.tryGenerate with
  | (GenResult.thrown err, s1) => (some err, { s1 with finished := true })
  | (GenResult.yield none, s1) =>
      let s2 := { s1 with finished := true }
      (none, if s2.is_cancelled then { s2 with finished := true } else s2)
  | (GenResult.yield (some c), s1) =>
      let s2 := if c.toBool then { s1 with current_chunk := c, has_input := true }
                else { s1 with current_chunk := c }
      (none, if s2.is_cancelled then { s2 with finished := true } else s2)

/-- State of a side-channel source (`RemoteTotalsSource` /
`RemoteExtremesSource`): the `ISource` base state plus the shared
executor handle. -/
structure SideSource where
  output : Port
  finished : Bool
  is_cancelled : Bool
  has_input : Bool
  current_chunk : Chunk
  executor : RemoteQueryExecutor
deriving Repr, DecidableEq

/-- `RemoteTotalsSource::RemoteTotalsSource(executor)`. -/
def RemoteTotalsSource.new (executor : RemoteQueryExecutor) : SideSource :=
  ⟨Port.new, false, false, false, Chunk.empty, executor⟩

/-- `RemoteExtremesSource::RemoteExtremesSource(executor)`. -/
def RemoteExtremesSource.new (executor : RemoteQueryExecutor) : SideSource :=
  ⟨Port.new, false, false, false, Chunk.empty, executor⟩

/-- `RemoteTotalsSource::generate`: if `getTotals` yields a block, wrap it
into a chunk, else return the empty chunk. -/
def RemoteTotalsSource.generate (s : SideSource) : Chunk × SideSource :=
  let (ob, e1) := s.executor.getTotals
  let s := { s with executor := e1 }
  match ob with
  | some b => (⟨b.rows, none⟩, s)
  | none => (Chunk.empty, s)

/-- `RemoteExtremesSource::generate`: if `getExtremes` yields a block, wrap
it into a chunk, else return the empty chunk. -/
def RemoteExtremesSource.generate (s : SideSource) : Chunk × SideSource :=
  let (ob, e1) := s.executor.getExtremes
  let s := { s with executor := e1 }
  match ob with
  | some b => (⟨b.rows, none⟩, s)
  | none => (Chunk.empty, s)

/-- Modelled from the spec: `ISource::tryGenerate`'s default wrapper around
`generate` (an empty chunk means end of stream) combined with
`ISource::work` (neither is among the sources): a non-empty chunk becomes
the pending input, an empty one marks the source finished. -/
def ISource.workSide (gen : SideSource → Chunk × SideSource) (s : SideSource) : SideSource :=
  let (c, s1) := gen s
  if c.toBool then { s1 with current_chunk := c, has_input := true }
  else { s1 with finished := true }

/-- Modelled from the spec: the generic `ISource::prepare` contract on a
side-channel source (same logic as `ISource.prepare`). -/
def ISource.prepareSide (s : SideSource) : Status × SideSource :=
  if s.finished || s.is_cancelled then
    (Status.Finished, { s with output := s.output.finish })
  else if s.output.isFinished then
    (Status.Finished, s)
  else if !s.output.canPush then
    (Status.PortFull, s)
  else if !s.has_input then
    (Status.Ready, s)
  else
    (Status.PortFull,
      { s with output := s.output.push s.current_chunk,
               has_input := false, current_chunk := Chunk.empty })

/-- `createRemoteSourcePipe`: one `RemoteSource` plus optional totals and
extremes sources sharing the same executor handle. -/
structure Pipe where
  source : RemoteSource
  totals : Option SideSource
  extremes : Option SideSource

/-- `createRemoteSourcePipe(query_executor, add_aggregation_info, add_totals,
add_extremes, async_read, uuid)`. -/
def createRemoteSourcePipe (query_executor : RemoteQueryExecutor)
    (add_aggregation_info add_totals add_extremes async_read : Bool)
    (uuid : Nat) : Pipe :=
  { source := RemoteSource.new query_executor add_aggregation_info async_read uuid
    totals := if add_totals then some (RemoteTotalsSource.new query_executor) else none
    extremes := if add_extremes then some (RemoteExtremesSource.new query_executor) else none }

/-- A scheduler run over one `RemoteSource` with an always-consuming
downstream: the source state, the first exception observed (if any), and
whether the run reached a terminal status. -/
structure Run where
  src : RemoteSource
  err : Option Err
  done : Bool
deriving Repr, DecidableEq

/-- One scheduler tick: call `prepare`; on `Ready` run the producing step, on
`PortFull` let the downstream pull the chunk out of the output slot, on
`Finished` stop.  (`Async` and `NeedsData` park the run; they do not arise
in the blocking-mode scenarios driven here.) -/
def driveStep (r : Run) : Run :=
  if r.done then r else
  let (st, s1) := r.src.prepare
  match st with
  | Status.Finished => { r with src := s1, done := true }
  | Status.Ready =>
      match ISource.work s1 with
      | (some e, s2) => { src := s2, err := some e, done := true }
      | (none, s2) => { r with src := s2 }
  | Status.PortFull => { r with src := { s1 with output := s1.output.pull } }
  | Status.Async => { r with src := s1, done := true }
  | Status.NeedsData => { r with src := s1, done := true }

/-- Iterate `driveStep` a given number of ticks. -/
def drive : Nat → Run → Run
  | 0, r => r
  | n + 1, r => drive n (driveStep r)

/-- A scheduler run over one side-channel source, parameterized by its
`generate` implementation. -/
structure SideRun where
  src : SideSource
  done : Bool
deriving Repr, DecidableEq

/-- One scheduler tick for a side-channel source. -/
def driveSideStep (gen : SideSource → Chunk × SideSource) (r : SideRun) : SideRun :=
  if r.done then r else
  let (st, s1) := ISource.prepareSide r.src
  match st with
  | Status.Finished => { r with src := s1, done := true }
  | Status.Ready => { r with src := ISource.workSide gen s1 }
  | Status.PortFull => { r with src := { s1 with output := s1.output.pull } }
  | Status.Async => { r with src := s1, done := true }
  | Status.NeedsData => { r with src := s1, done := true }

/-- Iterate `driveSideStep` a given number of ticks. -/
def driveSide (gen : SideSource → Chunk × SideSource) : Nat → SideRun → SideRun
  | 0, r => r
  | n + 1, r => driveSide gen n (driveSideStep gen r)

/-- A handle with empty scripts and cleared counters, used as the base of
concrete witness states. -/
def exec0 : RemoteQueryExecutor :=
  ⟨[], [], [], [], [], 0, 0, 0, false, false, false, false⟩

/-- C1: once `was_query_canceled` is observed, `prepare` finishes the main
output port and returns `Finished` (never `Async`), and the flag stays set,
so every subsequent `prepare` call behaves the same — including from the
async-parked sub-state, which is not consulted on this path. -/
theorem prepare_after_cancel_finished (s : RemoteSource)
    (h : s.was_query_canceled = true) :
    (s.prepare).1 = Status.Finished ∧
    (s.prepare).1 ≠ Status.Async ∧
    (s.prepare).2.output.isFinished = true ∧
    (s.prepare).2.was_query_canceled = true := by
  simp [RemoteSource.prepare, h, Port.finish]

/-- Witness for C1: a concrete canceled state parked in the async sub-state. -/
theorem prepare_after_cancel_finished_witness :
    let s : RemoteSource :=
      { RemoteSource.new exec0 false true 0 with
          was_query_canceled := true, is_async_state := true }
    s.was_query_canceled = true ∧
      ((s.prepare).1 = Status.Finished ∧ (s.prepare).1 ≠ Status.Async ∧
       (s.prepare).2.output.isFinished = true ∧
       (s.prepare).2.was_query_canceled = true) :=
  ⟨by decide, prepare_after_cancel_finished _ (by decide)⟩

/-- C10: the early-cancellation path of `prepare` only finishes the main
output port; the dependency port, the executor (in particular its `finish`
call count) and the async flag are untouched. -/
theorem prepare_cancel_frame (s : RemoteSource)
    (h : s.was_query_canceled = true) :
    (s.prepare).2 = { s with output := s.output.finish } ∧
    (s.prepare).2.dependency_port = s.dependency_port ∧
    (s.prepare).2.executor.finishCount = s.executor.finishCount ∧
    (s.prepare).2.executor = s.executor ∧
    (s.prepare).2.is_async_state = s.is_async_state := by
  simp [RemoteSource.prepare, h]

/-- Witness for C10: a concrete canceled state with a connected dependency
port and the async flag set. -/
theorem prepare_cancel_frame_witness :
    let s : RemoteSource :=
      { (RemoteSource.new exec0 false true 0).connectToScheduler with
          was_query_canceled := true, is_async_state := true }
    s.was_query_canceled = true ∧
      ((s.prepare).2 = { s with output := s.output.finish } ∧
       (s.prepare).2.dependency_port = s.dependency_port ∧
       (s.prepare).2.executor.finishCount = s.executor.finishCount ∧
       (s.prepare).2.executor = s.executor ∧
       (s.prepare).2.is_async_state = s.is_async_state) :=
  ⟨by decide, prepare_cancel_frame _ (by decide)⟩

/-- Strip the executor's call counters, keeping its observable (idempotent)
state: the claim about cancellation idempotence is understood modulo the
number of `cancel` calls issued to the handle, which the handle absorbs
idempotently. -/
def RemoteQueryExecutor.stripCounts (e : RemoteQueryExecutor) : RemoteQueryExecutor :=
  { e with sendQueryCount := 0, finishCount := 0, cancelCount := 0 }

/-- The observable part of a `RemoteSource` state: everything except the
handle's raw call counters. -/
def RemoteSource.obs (s : RemoteSource) : RemoteSource :=
  { s with executor := s.executor.stripCounts }

/-- C8: calling `onCancel` twice differs from calling it once only in one
extra (idempotent) `cancel` call to the handle: the observable states
coincide, and the next `prepare` / `tryGenerate` produce the same status,
the same value and observably equal states. -/
theorem onCancel_idempotent (s : RemoteSource) :
    s.onCancel.onCancel =
      { s.onCancel with executor :=
          { s.onCancel.executor with
              cancelCount := s.onCancel.executor.cancelCount + 1 } } ∧
    s.onCancel.onCancel.obs = s.onCancel.obs ∧
    (s.onCancel.onCancel.prepare).1 = (s.onCancel.prepare).1 ∧
    (s.onCancel.onCancel.prepare).2.obs = (s.onCancel.prepare).2.obs ∧
    (s.onCancel.onCancel.tryGenerate).1 = (s.onCancel.tryGenerate).1 ∧
    (s.onCancel.onCancel.tryGenerate).2.obs = (s.onCancel.tryGenerate).2.obs := by
  refine ⟨rfl, rfl, ?_, ?_, rfl, rfl⟩ <;>
    simp [RemoteSource.prepare, RemoteSource.onCancel, RemoteSource.obs,
      RemoteQueryExecutor.cancel, RemoteQueryExecutor.stripCounts]

/-- C2: in asynchronous mode, a `Nothing` read outcome makes `tryGenerate`
throw `LOGICAL_ERROR`; and whenever the handle's next outcome is not
`Nothing`, `tryGenerate` throws nothing at all, so under the precondition
that the handle never returns `Nothing` the error branch is unreachable. -/
theorem tryGenerate_nothing_logic_error (s : RemoteSource)
    (hnc : s.was_query_canceled = false) (ha : s.async_read = true) :
    (s.executor.readScript.head? = some ReadResult.Nothing →
      (s.tryGenerate).1 = GenResult.thrown Err.LOGICAL_ERROR) ∧
    (s.executor.readScript.head? ≠ some ReadResult.Nothing →
      ∀ e, (s.tryGenerate).1 ≠ GenResult.thrown e) := by
  unfold RemoteSource.tryGenerate
  by_cases hq : s.was_query_sent <;>
    rcases hs : s.executor.readScript with _ | ⟨_ | _ | _ | ob, rest⟩ <;>
      simp [hnc, ha, hq, hs, RemoteQueryExecutor.read,
        RemoteQueryExecutor.sendQuery, RemoteQueryExecutor.setProgressCallback,
        RemoteQueryExecutor.setProfileInfoCallback] <;>
      cases ob <;> simp

/-- Witness for C2: a handle scripted to return `Nothing`, and one scripted
to return data. -/
theorem tryGenerate_nothing_logic_error_witness :
    let sN : RemoteSource :=
      RemoteSource.new { exec0 with readScript := [ReadResult.Nothing] } false true 0
    let sD : RemoteSource :=
      RemoteSource.new
        { exec0 with readScript := [ReadResult.Data (some ⟨4, 0, false⟩)] } false true 0
    ((sN.tryGenerate).1 = GenResult.thrown Err.LOGICAL_ERROR) ∧
    (∀ e, (sD.tryGenerate).1 ≠ GenResult.thrown e) :=
  ⟨(tryGenerate_nothing_logic_error _ (by decide) (by decide)).1 (by decide),
   (tryGenerate_nothing_logic_error _ (by decide) (by decide)).2 (by decide)⟩

/-- C5: asynchronous outcomes other than `Nothing`: a `FileDescriptor`
outcome stores the descriptor, enters the async sub-state, yields an empty
chunk, and the immediately following `prepare` reports `Async`; a
`ParallelReplicasToken` outcome clears the async sub-state and yields an
empty chunk (no payload, no wait); a `Data` outcome clears the async
sub-state and wraps the block. -/
theorem tryGenerate_async_outcomes (s : RemoteSource)
    (hnc : s.was_query_canceled = false) (ha : s.async_read = true) :
    (∀ n, s.executor.readScript.head? = some (ReadResult.FileDescriptor n) →
      (s.tryGenerate).1 = GenResult.yield (some Chunk.empty) ∧
      (s.tryGenerate).2.fd = some n ∧
      (s.tryGenerate).2.is_async_state = true ∧
      ((s.tryGenerate).2.prepare).1 = Status.Async) ∧
    (s.executor.readScript.head? = some ReadResult.ParallelReplicasToken →
      (s.tryGenerate).1 = GenResult.yield (some Chunk.empty) ∧
      (s.tryGenerate).2.is_async_state = false) ∧
    (∀ b, s.executor.readScript.head? = some (ReadResult.Data (some b)) →
      (s.tryGenerate).2.is_async_state = false ∧
      (s.tryGenerate).1 = GenResult.yield (some
        ⟨b.rows, if s.add_aggregation_info then some ⟨b.bucket_num, b.is_overflows⟩
                 else none⟩)) := by
  unfold RemoteSource.tryGenerate RemoteSource.prepare
  by_cases hq : s.was_query_sent <;>
    rcases hs : s.executor.readScript with _ | ⟨_ | _ | _ | ob, rest⟩ <;>
      simp [hnc, ha, hq, hs, RemoteQueryExecutor.read,
        RemoteQueryExecutor.sendQuery, RemoteQueryExecutor.setProgressCallback,
        RemoteQueryExecutor.setProfileInfoCallback] <;>
      cases ob <;> simp

/-- Concrete async source whose handle is scripted to hand out a file
descriptor. -/
def srcFd : RemoteSource :=
  RemoteSource.new { exec0 with readScript := [ReadResult.FileDescriptor 9] } false true 0

/-- Concrete async source whose handle is scripted to hand out a
parallel-replicas token. -/
def srcToken : RemoteSource :=
  RemoteSource.new { exec0 with readScript := [ReadResult.ParallelReplicasToken] } false true 0

/-- Concrete async source (aggregation info on) whose handle is scripted to
hand out one data block. -/
def srcData : RemoteSource :=
  RemoteSource.new
    { exec0 with readScript := [ReadResult.Data (some ⟨6, 2, true⟩)] } true true 0

/-- Witness for C5: concrete handles scripted with each of the three
outcomes. -/
theorem tryGenerate_async_outcomes_witness :
    ((srcFd.tryGenerate).2.fd = some 9 ∧ (srcFd.tryGenerate).2.is_async_state = true ∧
      ((srcFd.tryGenerate).2.prepare).1 = Status.Async) ∧
    ((srcToken.tryGenerate).1 = GenResult.yield (some Chunk.empty) ∧
      (srcToken.tryGenerate).2.is_async_state = false) ∧
    ((srcData.tryGenerate).1 = GenResult.yield (some ⟨6, some ⟨2, true⟩⟩)) := by
  refine ⟨?_, ?_, ?_⟩
  · have h := ((tryGenerate_async_outcomes srcFd (by decide) (by decide)).1 9 (by decide))
    exact ⟨h.2.1, h.2.2.1, h.2.2.2⟩
  · exact (tryGenerate_async_outcomes srcToken (by decide) (by decide)).2.1 (by decide)
  · exact ((tryGenerate_async_outcomes srcData (by decide) (by decide)).2.2
      ⟨6, 2, true⟩ (by decide)).2

/-- `ISource.prepare` only touches the output port and the pending-chunk
fields; all `RemoteSource` members, the dependency port and the executor are
untouched. -/
theorem ISource_prepare_frame (s : RemoteSource) :
    (ISource.prepare s).2.finished = s.finished ∧
    (ISource.prepare s).2.is_cancelled = s.is_cancelled ∧
    (ISource.prepare s).2.add_aggregation_info = s.add_aggregation_info ∧
    (ISource.prepare s).2.async_read = s.async_read ∧
    (ISource.prepare s).2.uuid = s.uuid ∧
    (ISource.prepare s).2.was_query_sent = s.was_query_sent ∧
    (ISource.prepare s).2.was_query_canceled = s.was_query_canceled ∧
    (ISource.prepare s).2.is_async_state = s.is_async_state ∧
    (ISource.prepare s).2.fd = s.fd ∧
    (ISource.prepare s).2.dependency_port = s.dependency_port ∧
    (ISource.prepare s).2.executor = s.executor := by
  unfold ISource.prepare
  split_ifs <;> simp

/-- C4: the constructor turns `add_aggregation_info` on exactly when the
caller requested it or the output header contains a partial-aggregate
column; a data block wrapped by `tryGenerate` carries an
`AggregatedChunkInfo` with the block's own `bucket_num` / `is_overflows`
exactly when the flag is on, and carries no info otherwise; and no
operation ever changes the flag, so the policy holds for every chunk the
source emits. -/
theorem aggregation_info_policy :
    (∀ (e : RemoteQueryExecutor) (agg async : Bool) (u : Nat),
      (RemoteSource.new e agg async u).add_aggregation_info
        = (agg || e.header.any (fun t => t))) ∧
    (∀ (s : RemoteSource) (b : BlockData), s.was_query_canceled = false →
      (if s.async_read then
          s.executor.readScript.head? = some (ReadResult.Data (some b))
        else s.executor.blockScript.head? = some (some b)) →
      (s.tryGenerate).1 = GenResult.yield (some
        ⟨b.rows, if s.add_aggregation_info then some ⟨b.bucket_num, b.is_overflows⟩
                 else none⟩)) ∧
    (∀ s : RemoteSource,
      (s.tryGenerate).2.add_aggregation_info = s.add_aggregation_info ∧
      (s.prepare).2.add_aggregation_info = s.add_aggregation_info) := by
  refine ⟨?_, ?_, ?_⟩
  · intro e agg async u
    simp [RemoteSource.new]
  · intro s b hnc hhead
    by_cases hmode : s.async_read <;> simp [hmode] at hhead <;>
      unfold RemoteSource.tryGenerate <;>
      by_cases hq : s.was_query_sent
    · rcases hs : s.executor.readScript with _ | ⟨r, rest⟩ <;> rw [hs] at hhead <;>
        simp at hhead
      subst hhead
      simp [hnc, hmode, hq, hs, RemoteQueryExecutor.read]
    · rcases hs : s.executor.readScript with _ | ⟨r, rest⟩ <;> rw [hs] at hhead <;>
        simp at hhead
      subst hhead
      simp [hnc, hmode, hq, hs, RemoteQueryExecutor.read,
        RemoteQueryExecutor.sendQuery, RemoteQueryExecutor.setProgressCallback,
        RemoteQueryExecutor.setProfileInfoCallback]
    · rcases hs : s.executor.blockScript with _ | ⟨ob, rest⟩ <;> rw [hs] at hhead <;>
        simp at hhead
      subst hhead
      simp [hnc, hmode, hq, hs, RemoteQueryExecutor.readBlock]
    · rcases hs : s.executor.blockScript with _ | ⟨ob, rest⟩ <;> rw [hs] at hhead <;>
        simp at hhead
      subst hhead
      simp [hnc, hmode, hq, hs, RemoteQueryExecutor.readBlock,
        RemoteQueryExecutor.sendQuery, RemoteQueryExecutor.setProgressCallback,
        RemoteQueryExecutor.setProfileInfoCallback]
  · intro s
    constructor
    · unfold RemoteSource.tryGenerate
      by_cases hc : s.was_query_canceled <;> by_cases hq : s.was_query_sent <;>
        by_cases hmode : s.async_read <;>
        rcases hs : s.executor.readScript with _ | ⟨_ | _ | _ | ob, _⟩ <;>
        rcases hb : s.executor.blockScript with _ | ⟨obb, _⟩ <;>
        simp [hc, hq, hmode, hs, hb, RemoteQueryExecutor.read,
          RemoteQueryExecutor.readBlock, RemoteQueryExecutor.finish,
          RemoteQueryExecutor.sendQuery, RemoteQueryExecutor.setProgressCallback,
          RemoteQueryExecutor.setProfileInfoCallback] <;>
        first
        | (cases ob <;> cases obb <;> simp)
        | (cases ob <;> simp)
        | (cases obb <;> simp)
    · unfold RemoteSource.prepare
      rcases hq : ISource.prepare s with ⟨st, s1⟩
      have hagg : s1.add_aggregation_info = s.add_aggregation_info := by
        have h := (ISource_prepare_frame s).2.2.1
        rw [hq] at h
        exact h
      by_cases hc : s.was_query_canceled <;> by_cases ha : s.is_async_state <;>
        cases st <;>
        simp [hc, ha, hq, hagg]

/-- Concrete blocking-mode source whose output header contains a
partial-aggregate column (forcing aggregation info on). -/
def srcAggHeader : RemoteSource :=
  RemoteSource.new
    { exec0 with header := [false, true], blockScript := [some ⟨8, 3, true⟩] }
    false false 0

/-- Concrete blocking-mode source with aggregation info off. -/
def srcNoAgg : RemoteSource :=
  RemoteSource.new { exec0 with blockScript := [some ⟨8, 3, true⟩] } false false 0

/-- Witness for C4: the header-forced flag, an emitted chunk with copied
bucket/overflow fields, and flag preservation, at concrete states. -/
theorem aggregation_info_policy_witness :
    ((RemoteSource.new { exec0 with header := [false, true] } false false 0).add_aggregation_info
        = (false || ({ exec0 with header := [false, true] } : RemoteQueryExecutor).header.any
            (fun t => t))) ∧
    ((srcAggHeader.tryGenerate).1 = GenResult.yield (some
        ⟨8, if srcAggHeader.add_aggregation_info then some ⟨3, true⟩ else none⟩)) ∧
    ((srcNoAgg.tryGenerate).2.add_aggregation_info = srcNoAgg.add_aggregation_info ∧
     (srcNoAgg.prepare).2.add_aggregation_info = srcNoAgg.add_aggregation_info) :=
  ⟨(aggregation_info_policy).1 { exec0 with header := [false, true] } false false 0,
   (aggregation_info_policy).2.1 srcAggHeader ⟨8, 3, true⟩ (by decide) (by decide),
   (aggregation_info_policy).2.2 srcNoAgg⟩

/-- C6: when the base status is `PortFull` (and neither the cancellation nor
the async path preempts it), `prepare` returns `PortFull`; if the
dependency port is connected, not finished and can accept data, exactly one
empty marker chunk is pushed onto it (its log grows by exactly the one
empty chunk); if it is absent, finished or unable to accept, it is left
exactly as it was. -/
theorem prepare_portfull_marker (s : RemoteSource)
    (hnc : s.was_query_canceled = false) (hna : s.is_async_state = false)
    (hpf : (ISource.prepare s).1 = Status.PortFull) :
    (s.prepare).1 = Status.PortFull ∧
    (∀ dp : Port, s.dependency_port = some dp →
      (dp.isFinished = false ∧ dp.canPush = true →
        (s.prepare).2.dependency_port = some (dp.push Chunk.empty) ∧
        ((s.prepare).2.dependency_port.map fun p => p.log) =
          some (dp.log ++ [Chunk.empty])) ∧
      (¬(dp.isFinished = false ∧ dp.canPush = true) →
        (s.prepare).2.dependency_port = some dp)) ∧
    (s.dependency_port = none → (s.prepare).2.dependency_port = none) := by
  rcases hq : ISource.prepare s with ⟨st, s1⟩
  have hst : st = Status.PortFull := by rw [hq] at hpf; exact hpf
  subst hst
  have hdep : s1.dependency_port = s.dependency_port := by
    have h := (ISource_prepare_frame s).2.2.2.2.2.2.2.2.2.1
    rw [hq] at h; exact h
  unfold RemoteSource.prepare
  rw [hq]
  rcases hd : s.dependency_port with _ | dp <;> rw [hd] at hdep <;>
    simp [hnc, hna, hdep]
  by_cases hfin : dp.isFinished <;> by_cases hcp : dp.canPush <;>
    simp [hfin, hcp, Port.push]

/-- Concrete source with a full output slot (base status `PortFull`) and a
fresh connected dependency port. -/
def srcPortFull : RemoteSource :=
  { (RemoteSource.new exec0 false false 0).connectToScheduler with
      output := ⟨false, some ⟨1, none⟩, [⟨1, none⟩]⟩ }

/-- Like `srcPortFull` but with its dependency port already finished. -/
def srcPortFullDepDone : RemoteSource :=
  { srcPortFull with dependency_port := some ⟨true, none, []⟩ }

/-- Witness for C6: the marker is pushed exactly once on an accepting
dependency port, and not at all on a finished one. -/
theorem prepare_portfull_marker_witness :
    ((srcPortFull.prepare).1 = Status.PortFull ∧
     (srcPortFull.prepare).2.dependency_port = some (Port.new.push Chunk.empty) ∧
     ((srcPortFull.prepare).2.dependency_port.map fun p => p.log) =
       some ([] ++ [Chunk.empty])) ∧
    ((srcPortFullDepDone.prepare).2.dependency_port = some ⟨true, none, []⟩) := by
  refine ⟨?_, ?_⟩
  · have h := prepare_portfull_marker srcPortFull (by decide) (by decide) (by decide)
    have h2 := (h.2.1 Port.new (by decide)).1 ⟨by decide, by decide⟩
    exact ⟨h.1, h2.1, h2.2⟩
  · exact ((prepare_portfull_marker srcPortFullDepDone (by decide) (by decide)
      (by decide)).2.1 ⟨true, none, []⟩ (by decide)).2 (by decide)

/-- Effect of one `tryGenerate` call on the query-submission state: the
cancellation flag is never changed, the sent flag becomes true on any
non-cancelled call, and the callbacks and the `sendQuery` call happen
exactly on a non-cancelled call that finds the sent flag unset. -/
theorem tryGenerate_submission (s : RemoteSource) :
    (s.tryGenerate).2.was_query_canceled = s.was_query_canceled ∧
    (s.tryGenerate).2.was_query_sent
      = (if s.was_query_canceled then s.was_query_sent else true) ∧
    (s.tryGenerate).2.executor.sendQueryCount
      = (if s.was_query_canceled || s.was_query_sent then s.executor.sendQueryCount
         else s.executor.sendQueryCount + 1) ∧
    (s.tryGenerate).2.executor.progressCallbackSet
      = (if s.was_query_canceled then s.executor.progressCallbackSet
         else s.executor.progressCallbackSet || !s.was_query_sent) ∧
    (s.tryGenerate).2.executor.profileInfoCallbackSet
      = (if s.was_query_canceled then s.executor.profileInfoCallbackSet
         else s.executor.profileInfoCallbackSet || !s.was_query_sent) := by
  unfold RemoteSource.tryGenerate
  by_cases hc : s.was_query_canceled <;> by_cases hq : s.was_query_sent <;>
    by_cases hmode : s.async_read <;>
    rcases hs : s.executor.readScript with _ | ⟨_ | _ | _ | ob, _⟩ <;>
    rcases hb : s.executor.blockScript with _ | ⟨obb, _⟩ <;>
    simp [hc, hq, hmode, hs, hb, RemoteQueryExecutor.read,
      RemoteQueryExecutor.readBlock, RemoteQueryExecutor.finish,
      RemoteQueryExecutor.sendQuery, RemoteQueryExecutor.setProgressCallback,
      RemoteQueryExecutor.setProfileInfoCallback] <;>
    first
    | (cases ob <;> cases obb <;> simp)
    | (cases ob <;> simp)
    | (cases obb <;> simp)

/-- Iterate `tryGenerate`, keeping only the state, to talk about a sequence
of producing-step calls on one source instance. -/
def RemoteSource.genIter : Nat → RemoteSource → RemoteSource
  | 0, s => s
  | n + 1, s => RemoteSource.genIter n (s.tryGenerate).2

/-- C7: the first non-cancelled `tryGenerate` call registers both callbacks
and submits the query, setting the sent flag; once the flag is set, no
later call ever invokes `sendQuery` again; and along any sequence of
`tryGenerate` calls from a fresh state, `sendQuery` is invoked at most
once. -/
theorem sendQuery_exactly_once :
    (∀ s : RemoteSource, s.was_query_canceled = false → s.was_query_sent = false →
      (s.tryGenerate).2.was_query_sent = true ∧
      (s.tryGenerate).2.executor.sendQueryCount = s.executor.sendQueryCount + 1 ∧
      (s.tryGenerate).2.executor.progressCallbackSet = true ∧
      (s.tryGenerate).2.executor.profileInfoCallbackSet = true) ∧
    (∀ s : RemoteSource, s.was_query_sent = true →
      (s.tryGenerate).2.executor.sendQueryCount = s.executor.sendQueryCount) ∧
    (∀ (s : RemoteSource) (n : Nat),
      s.executor.sendQueryCount = (if s.was_query_sent then 1 else 0) →
      (RemoteSource.genIter n s).executor.sendQueryCount ≤ 1) := by
  have hstep : ∀ s : RemoteSource,
      s.executor.sendQueryCount = (if s.was_query_sent then 1 else 0) →
      (s.tryGenerate).2.executor.sendQueryCount
        = (if (s.tryGenerate).2.was_query_sent then 1 else 0) := by
    intro s hP
    obtain ⟨_, h1, h2, _⟩ := tryGenerate_submission s
    rw [h1, h2, hP]
    by_cases hc : s.was_query_canceled <;> by_cases hq : s.was_query_sent <;>
      simp [hc, hq]
  refine ⟨?_, ?_, ?_⟩
  · intro s hnc hq
    obtain ⟨_, h1, h2, h3, h4⟩ := tryGenerate_submission s
    rw [h1, h2, h3, h4]
    simp [hnc, hq]
  · intro s hq
    obtain ⟨_, _, h2, _⟩ := tryGenerate_submission s
    rw [h2]
    simp [hq]
  · intro s n
    induction n generalizing s with
    | zero =>
        intro h
        rw [RemoteSource.genIter, h]
        split <;> simp
    | succ n ih =>
        intro h
        exact ih _ (hstep s h)

/-- Concrete fresh blocking-mode source used for the C7 witness. -/
def srcFresh : RemoteSource :=
  RemoteSource.new { exec0 with blockScript := [some ⟨2, 0, false⟩, none] } false false 0

/-- Witness for C7: the fresh source submits on the first call; a source
with the flag already set never adds a call; iterating three calls from a
fresh state leaves at most one submission. -/
theorem sendQuery_exactly_once_witness :
    ((srcFresh.tryGenerate).2.was_query_sent = true ∧
     (srcFresh.tryGenerate).2.executor.sendQueryCount
       = srcFresh.executor.sendQueryCount + 1 ∧
     (srcFresh.tryGenerate).2.executor.progressCallbackSet = true ∧
     (srcFresh.tryGenerate).2.executor.profileInfoCallbackSet = true) ∧
    (((srcFresh.tryGenerate).2.tryGenerate).2.executor.sendQueryCount
       = (srcFresh.tryGenerate).2.executor.sendQueryCount) ∧
    (RemoteSource.genIter 3 srcFresh).executor.sendQueryCount ≤ 1 :=
  ⟨sendQuery_exactly_once.1 srcFresh (by decide) (by decide),
   sendQuery_exactly_once.2.1 (srcFresh.tryGenerate).2 (by decide),
   sendQuery_exactly_once.2.2 srcFresh 3 (by decide)⟩

/-- The C3 scenario handle: blocking mode, no aggregation info, two
non-empty blocks of 10 and 5 rows followed by the empty block. -/
def execScenario : RemoteQueryExecutor :=
  { exec0 with blockScript := [some ⟨10, 0, false⟩, some ⟨5, 0, false⟩, none] }

/-- The C3 scenario run, started on a fresh source. -/
def runInit : Run := ⟨RemoteSource.new execScenario false false 0, none, false⟩

/-- The C3 scenario driven to completion. -/
def runScenario : Run := drive 12 runInit

/-- Counterexample for C3: in the 10/5/empty blocking scenario the source
does emit chunks of 10 and 5 rows and then terminates, but the handle's
`finish()` is called twice — once from `tryGenerate`'s empty-block path and
once from `prepare`'s `Finished` path — not exactly once as claimed. -/
theorem scenario_finish_not_once :
    runScenario.src.output.log.map Chunk.numRows = [10, 5] ∧
    runScenario.done = true ∧
    runScenario.src.executor.finishCount = 2 ∧
    ¬ runScenario.src.executor.finishCount = 1 := by
  decide

/-- C3 (amended): in the 10/5/empty blocking scenario the source emits
exactly two chunks of 10 and 5 rows, then signals end-of-stream; the
handle's `finish()` is called exactly twice across the run — exactly once
by `tryGenerate`'s empty-block path (the count is 1 right after the tick
that observes the empty block and marks the source finished) and exactly
once more by `prepare`'s `Finished` path.  The handle absorbs the second
call idempotently (`wasFinished` is already set). -/
theorem scenario_two_chunks_finish_twice :
    runScenario.src.output.log.map Chunk.numRows = [10, 5] ∧
    runScenario.done = true ∧
    runScenario.src.output.isFinished = true ∧
    runScenario.err = none ∧
    (drive 5 runInit).src.executor.finishCount = 1 ∧
    (drive 5 runInit).src.finished = true ∧
    (drive 5 runInit).src.executor.wasFinished = true ∧
    runScenario.src.executor.finishCount = 2 := by
  decide

/-- The C9 totals handle: a totals block of 7 rows once, absent thereafter. -/
def execTotalsOnce : RemoteQueryExecutor :=
  { exec0 with totalsScript := [some ⟨7, 0, false⟩] }

/-- The C9 extremes handle: an extremes block of 3 rows once, absent
thereafter. -/
def execExtremesOnce : RemoteQueryExecutor :=
  { exec0 with extremesScript := [some ⟨3, 0, false⟩] }

/-- The C9 totals run, driven to completion. -/
def totalsRun : SideRun :=
  driveSide RemoteTotalsSource.generate 10 ⟨RemoteTotalsSource.new execTotalsOnce, false⟩

/-- The C9 extremes run, driven to completion. -/
def extremesRun : SideRun :=
  driveSide RemoteExtremesSource.generate 10 ⟨RemoteExtremesSource.new execExtremesOnce, false⟩

/-- C9: for both side-channel sources, a `generate` call for which the
handle's block is absent returns the empty chunk and the producing step
marks the source finished (terminal); and for handles returning a present
block once and absent thereafter, each source emits exactly one chunk over
its whole lifetime. -/
theorem side_sources_single_shot :
    (∀ s : SideSource, s.executor.totalsScript.head?.getD none = none →
      (RemoteTotalsSource.generate s).1 = Chunk.empty ∧
      (ISource.workSide RemoteTotalsSource.generate s).finished = true) ∧
    (∀ s : SideSource, s.executor.extremesScript.head?.getD none = none →
      (RemoteExtremesSource.generate s).1 = Chunk.empty ∧
      (ISource.workSide RemoteExtremesSource.generate s).finished = true) ∧
    (totalsRun.done = true ∧ totalsRun.src.output.log.map Chunk.numRows = [7]) ∧
    (extremesRun.done = true ∧ extremesRun.src.output.log.map Chunk.numRows = [3]) := by
  refine ⟨?_, ?_, by decide, by decide⟩
  · intro s h
    rcases hs : s.executor.totalsScript with _ | ⟨ob, rest⟩ <;> rw [hs] at h <;>
      simp at h
    · simp [ISource.workSide, RemoteTotalsSource.generate,
        RemoteQueryExecutor.getTotals, hs, Chunk.toBool, Chunk.empty]
    · subst h
      simp [ISource.workSide, RemoteTotalsSource.generate,
        RemoteQueryExecutor.getTotals, hs, Chunk.toBool, Chunk.empty]
  · intro s h
    rcases hs : s.executor.extremesScript with _ | ⟨ob, rest⟩ <;> rw [hs] at h <;>
      simp at h
    · simp [ISource.workSide, RemoteExtremesSource.generate,
        RemoteQueryExecutor.getExtremes, hs, Chunk.toBool, Chunk.empty]
    · subst h
      simp [ISource.workSide, RemoteExtremesSource.generate,
        RemoteQueryExecutor.getExtremes, hs, Chunk.toBool, Chunk.empty]

/-- Concrete side-channel states whose next block is absent. -/
def sideAbsent : SideSource :=
  RemoteTotalsSource.new { exec0 with totalsScript := [none] }

/-- Concrete extremes state whose next block is absent. -/
def sideAbsentE : SideSource :=
  RemoteExtremesSource.new { exec0 with extremesScript := [none] }

/-- Witness for C9: the terminal absent-block behaviour at concrete states. -/
theorem side_sources_single_shot_witness :
    ((RemoteTotalsSource.generate sideAbsent).1 = Chunk.empty ∧
     (ISource.workSide RemoteTotalsSource.generate sideAbsent).finished = true) ∧
    ((RemoteExtremesSource.generate sideAbsentE).1 = Chunk.empty ∧
     (ISource.workSide RemoteExtremesSource.generate sideAbsentE).finished = true) :=
  ⟨side_sources_single_shot.1 sideAbsent (by decide),
   side_sources_single_shot.2.1 sideAbsentE (by decide)⟩
